import Mathlib

/-!
Shallow embedding of the AiTutor scrape-and-persist pipeline
(`aitutor_core/csv_tool.py`, `aitutor_core/cnki_core.py`,
`aitutor_core/get_search_formula.py`, `aitutor_core/aitutor_core.py`).

Python dictionaries are modelled as association lists with
first-match lookup; `d[k] = v` is modelled by prepending the binding
(observationally equivalent for `get`, `update`, `pop` as used by the
code), `d.pop(k, None)` removes every binding of `k`, and
`d.update(e)` folds insertions of `e`'s bindings in order.  Python's
`None` attribute values are represented by the empty string, which is
observationally equivalent here: the only truthiness test on such a
value (`paper.get('详情链接')`) treats `None` and `""` identically.
-/

namespace AiTutor

/-- A Python dict with string keys and string values. -/
abbrev Dict := List (String × String)

/-- `d.get(k, dflt)`: first binding of `k`, else the default. -/
def dget (d : Dict) (k dflt : String) : String :=
  match d.find? (fun p => p.1 == k) with
  | some p => p.2
  | none => dflt

/-- `d[k] = v`: prepend the binding (first-match lookup sees the newest). -/
def dinsert (d : Dict) (k v : String) : Dict := (k, v) :: d

/-- `d.pop(k, None)`: drop every binding of `k`. -/
def dpop (d : Dict) (k : String) : Dict := d.filter (fun p => !(p.1 == k))

/-- `d.update(e)`: insert `e`'s bindings in order (later bindings win). -/
def dupdate (d e : Dict) : Dict := e.foldl (fun acc p => dinsert acc p.1 p.2) d

/-- `k in d`. -/
def hasKey (d : Dict) (k : String) : Bool := d.any (fun p => p.1 == k)

theorem dget_cons (p : String × String) (d : Dict) (k dflt : String) :
    dget (p :: d) k dflt = if p.1 = k then p.2 else dget d k dflt := by
  by_cases h : p.1 = k
  · simp [dget, List.find?, beq_iff_eq, h]
  · have hb : (p.1 == k) = false := by simp [beq_iff_eq, h]
    simp [dget, List.find?, hb, h]

theorem dget_dinsert (d : Dict) (k v k' dflt : String) :
    dget (dinsert d k v) k' dflt = if k = k' then v else dget d k' dflt := by
  simp [dinsert, dget_cons]

theorem dget_dpop_ne (d : Dict) (k k' dflt : String) (h : k' ≠ k) :
    dget (dpop d k) k' dflt = dget d k' dflt := by
  induction d with
  | nil => rfl
  | cons p rest ih =>
    by_cases hp : p.1 = k
    · have hb : (!(p.1 == k)) = false := by simp [beq_iff_eq, hp]
      have hne : p.1 ≠ k' := fun e => h (by rw [← e]; exact hp)
      rw [dpop, List.filter_cons, hb]
      simp only [Bool.false_eq_true, if_false]
      rw [dget_cons, if_neg hne]
      exact ih
    · have hb : (!(p.1 == k)) = true := by simp [beq_iff_eq, hp]
      rw [dpop, List.filter_cons, hb]
      simp only [if_true]
      rw [dget_cons, dget_cons]
      by_cases hq : p.1 = k'
      · simp only [hq, if_true, if_pos rfl]
      · rw [if_neg hq, if_neg hq]
        exact ih

theorem dget_not_hasKey (d : Dict) (k dflt : String) (h : hasKey d k = false) :
    dget d k dflt = dflt := by
  induction d with
  | nil => rfl
  | cons p rest ih =>
    simp only [hasKey, List.any_cons, Bool.or_eq_false_iff] at h
    have h1 : p.1 ≠ k := by
      intro e
      rw [e] at h
      simp [beq_iff_eq] at h
    rw [dget_cons]
    simp only [h1, if_false]
    exact ih (by simpa [hasKey] using h.2)

/-! ### Record Writer (`csv_tool.py`, class `PaperCSVWriter`) -/

/-- The fixed CSV column names, in declared order (`self.fieldnames`). -/
def fieldnames : List String :=
  ["题名", "作者", "来源", "发表时间", "数据库", "被引", "下载",
   "摘要", "关键词", "基金资助", "专辑", "专题", "分类号", "DOI"]

/-- The row written for a record: `row[field] = paper_data.get(field, "")`
for each field, in column order (`write_paper`, lines 44-48). -/
def rowFor (d : Dict) : List String :=
  fieldnames.map (fun f => dget d f "")

/-- Writer state: the lines of the CSV file (header first) and the
running `paper_count`. -/
structure WriterState where
  fileLines : List (List String)
  paper_count : Nat
  deriving Repr, DecidableEq

/-- `__init__` + `_initialize_csv`: file created with the header line,
count zero. -/
def initWriter : WriterState :=
  { fileLines := [fieldnames], paper_count := 0 }

/-- `write_paper(paper_data)`.  The whole body is wrapped in
`try/except`, so the call never raises; `ok` says whether the file
open/write succeeds.  On success one line is appended and the count
incremented; on failure the state is unchanged.  The Python function
has no `return` statement, so its value is `None` on every path,
modelled as `none`. -/
def write_paper (st : WriterState) (d : Dict) (ok : Bool) :
    WriterState × Option Nat :=
  if ok then
    ({ fileLines := st.fileLines ++ [rowFor d], paper_count := st.paper_count + 1 }, none)
  else (st, none)

/-- `get_count()`. -/
def get_count (st : WriterState) : Nat := st.paper_count

/-- A sequence of `write_paper` calls, each with its own success flag. -/
def writeSeq (st : WriterState) (ops : List (Dict × Bool)) : WriterState :=
  ops.foldl (fun s op => (write_paper s op.1 op.2).1) st

/-! ### Date normalization (`cnki_core.py`, lines 70-80) -/

/-- `full_date.split(' ')[0]`: the characters before the first space. -/
def splitSpaceHead : List Char → List Char
  | [] => []
  | c :: cs => if c = ' ' then [] else c :: splitSpaceHead cs

/-- The date storing step: if `' ' in full_date` keep only
`full_date.split(' ')[0]`, else keep `full_date` unchanged. -/
def normalizeDate (s : String) : String :=
  if ' ' ∈ s.data then ⟨splitSpaceHead s.data⟩ else s

/-- Spec-side characterization: the portion of the string strictly
before the first space character. -/
def beforeFirstSpace (s : String) : String :=
  ⟨s.data.takeWhile (fun c => c ≠ ' ')⟩

theorem splitSpaceHead_eq_takeWhile (l : List Char) :
    splitSpaceHead l = l.takeWhile (fun c => c ≠ ' ') := by
  induction l with
  | nil => rfl
  | cons c cs ih =>
    by_cases h : c = ' '
    · simp [splitSpaceHead, List.takeWhile, h]
    · simp [splitSpaceHead, List.takeWhile, h, ih]

/-! ### List Extractor (`cnki_core.py`, `extract_paper_info`) -/

/-- What the browser shows for one result row.  Each `Option` field is
the outcome of the corresponding selector probe: `none` when
`locator.count() == 0`, `some v` when the (stripped) text, and for the
title anchors also the `href` attribute, is `v`.  `rowErr` models an
exception thrown anywhere while probing this row (caught by the
per-row `try/except`). -/
structure RowObs where
  rowErr : Bool
  fz14 : Option (String × String)
  anyAnchor : Option (String × String)
  author : Option String
  source : Option String
  date : Option String
  database : Option String
  quote : Option String
  download : Option String
  deriving Repr, DecidableEq

/-- Outcome of processing one row: a record appended to `all_papers`,
a silent skip (`continue` on the missing-title branch, lines 53-54), or
a skip with the diagnostic print of the `except` branch (lines 106-108). -/
inductive RowOut where
  | emit (d : Dict)
  | skipSilent
  | skipDiag
  deriving Repr, DecidableEq

/-- The paper dict built for a row with extracted values
`t` (题名), `link` (详情链接), `a` (作者), `s` (来源), `da` (发表时间,
already date-normalized), `db` (数据库), `q` (被引), `dl` (下载),
inserted in the source's assignment order. -/
def rowDict (t link a s da db q dl : String) : Dict :=
  dinsert (dinsert (dinsert (dinsert (dinsert (dinsert (dinsert (dinsert
    [] "题名" t) "详情链接" link) "作者" a) "来源" s) "发表时间" da)
    "数据库" db) "被引" q) "下载" dl

/-- The per-row body of `extract_paper_info` (lines 38-108): resolve
the title through the primary `td.name a.fz14` selector, then the
fallback `td.name a` selector, skipping the row silently when both
fail; the remaining fields default to `""` (`"0"` for the counts) and
the date is normalized. -/
def extractRow (r : RowObs) : RowOut :=
  if r.rowErr then .skipDiag
  else
    match (match r.fz14 with
           | some tl => some tl
           | none => r.anyAnchor) with
    | none => .skipSilent
    | some (t, link) =>
      .emit (rowDict t link (r.author.getD "") (r.source.getD "")
        (match r.date with
         | some full => normalizeDate full
         | none => "")
        (r.database.getD "") (r.quote.getD "0") (r.download.getD "0"))

/-- The records a page's rows contribute to `all_papers`. -/
def emittedRows (rows : List RowObs) : List Dict :=
  rows.filterMap (fun r =>
    match extractRow r with
    | .emit d => some d
    | _ => none)

/-- Outcome of the next-page probe at the bottom of the loop (lines
110-123): the combined locator matches nothing, or matches a disabled
control, or an exception is thrown during the probe itself (reaching
the outer `except`), or the click succeeds, or the click throws
(caught by the inner `try/except`). -/
inductive NextObs where
  | absent
  | disabled
  | probeErr
  | works
  | clickFails
  deriving Repr, DecidableEq

/-- What the browser shows for one iteration of the page loop:
`errBefore` models an exception during `wait_for_selector` or the row
enumeration (the outer `try/except`), and otherwise the page's rows
together with the next-button observation. -/
inductive PageObs where
  | errBefore
  | page (rows : List RowObs) (next : NextObs)
  deriving Repr, DecidableEq

/-- Why the `while True` loop exited. -/
inductive ExitReason where
  | pageExn
  | emptyPage
  | noNext
  | probeExn
  | clickExn
  deriving Repr, DecidableEq

/-- Result of `extract_paper_info`: the collected records, the final
value of `current_page`, and the exit reason (`none` when the supplied
observation stream was exhausted with the loop still running). -/
structure ListResult where
  papers : List Dict
  finalPage : Nat
  exitReason : Option ExitReason
  deriving Repr, DecidableEq

/-- The `while True` page loop of `extract_paper_info`, structurally
recursive over the stream of page observations. -/
def runPages (acc : List Dict) (cur : Nat) : List PageObs → ListResult
  | [] => ⟨acc, cur, none⟩
  | .errBefore :: _ => ⟨acc, cur, some .pageExn⟩
  | .page rows next :: rest =>
    if rows.isEmpty then ⟨acc, cur, some .emptyPage⟩
    else
      let acc' := acc ++ emittedRows rows
      match next with
      | .absent => ⟨acc', cur, some .noNext⟩
      | .disabled => ⟨acc', cur, some .noNext⟩
      | .probeErr => ⟨acc', cur, some .probeExn⟩
      | .clickFails => ⟨acc', cur, some .clickExn⟩
      | .works => runPages acc' (cur + 1) rest

/-- `extract_paper_info(page)`: `all_papers = []`, `current_page = 1`,
then the page loop. -/
def extract_paper_info (env : List PageObs) : ListResult :=
  runPages [] 1 env

/-- A page observation at which the loop exits: an exception during
page processing, zero rows, or a next-button probe that does not end
in a successful click (absent, disabled, probe exception, or click
exception). -/
def stops : PageObs → Bool
  | .errBefore => true
  | .page rows .works => rows.isEmpty
  | .page _ _ => true

/-- A page on which the loop always continues: one titled row and a
working next-page control. -/
def contPage : PageObs :=
  .page [⟨false, some ("T", "L"), none, none, none, none, none, none, none⟩] .works

/-- A page after which pagination stops: one titled row and no
next-page control. -/
def endPage : PageObs :=
  .page [⟨false, some ("T", "L"), none, none, none, none, none, none, none⟩] .absent

/-! ### Detail Extractor (`cnki_core.py`, `extract_paper_details`) -/

/-- What the detail page shows: each `Option` field is the outcome of
the corresponding selector probe (`none` for `count() == 0`). -/
structure DetailPage where
  chDivSummary : Option String
  abstractFallback : Option String
  chDivKeyWord : Option String
  keywordsFallback : Option String
  fundLi : Option String
  chDivFund : Option String
  albumLi : Option String
  topicLi : Option String
  classLi : Option String
  chDivClassNo : Option String
  doiLi : Option String
  deriving Repr, DecidableEq

/-- Observation for one `extract_paper_details` call: either the body
raises somewhere (`err`, caught by the enclosing `try/except`), or the
page is observed as `p`. -/
inductive DetailObs where
  | err
  | ok (p : DetailPage)
  deriving Repr, DecidableEq

/-- Primary selector, else fallback selector, else empty string. -/
def firstOrEmpty (primary fallback : Option String) : String :=
  match primary with
  | some v => v
  | none =>
    match fallback with
    | some v => v
    | none => ""

/-- `extract_paper_details(page, detail_url)`: on any exception the
whole result collapses to the literal all-empty dict of the `except`
branch (lines 236-244); otherwise each field is filled through its
primary/fallback selector chain, in the source's assignment order. -/
def extract_paper_details (obs : DetailObs) : Dict :=
  match obs with
  | .err =>
    [("摘要", ""), ("关键词", ""), ("基金资助", ""), ("专辑", ""),
     ("专题", ""), ("分类号", ""), ("DOI", "")]
  | .ok p =>
    dinsert (dinsert (dinsert (dinsert (dinsert (dinsert (dinsert []
      "摘要" (firstOrEmpty p.chDivSummary p.abstractFallback))
      "关键词" (firstOrEmpty p.chDivKeyWord p.keywordsFallback))
      "基金资助" (firstOrEmpty p.fundLi p.chDivFund))
      "专辑" (p.albumLi.getD ""))
      "专题" (p.topicLi.getD ""))
      "分类号" (firstOrEmpty p.classLi p.chDivClassNo))
      "DOI" (p.doiLi.getD "")

/-- The seven secondary field names filled by the Detail Extractor. -/
def secondaryFieldnames : List String :=
  ["摘要", "关键词", "基金资助", "专辑", "专题", "分类号", "DOI"]

/-! ### Session Orchestrator (`cnki_core.py`, `launch_cnki`) -/

/-- Observable events of one `launch_cnki` run, in order. -/
inductive Ev where
  /-- the `print("错误：未提供搜索式")` of the empty-query guard -/
  | reportError
  /-- `create_paper_csv_writer()`: file created, header line written -/
  | createCsv (header : List String)
  /-- `p.chromium.launch()` + `browser.new_context()` + `new_page()` -/
  | openSession
  /-- the `print("未找到搜索文本框")` of the missing-input branch -/
  | noTextArea
  /-- the call to `extract_paper_info(page)` -/
  | extractStart
  /-- the `print(f"已保存 {csv_writer.get_count()} 条文献到CSV文件")`
  of the `except` handler -/
  | logCount (n : Nat)
  /-- `browser.close()` in the `finally` block -/
  | closeSession
  deriving Repr, DecidableEq

/-- How the `try` body of `launch_cnki` ended: ran to the end,
returned early (`if not papers: return`), or raised. -/
inductive Outcome where
  | normal
  | earlyRet
  | exn
  deriving Repr, DecidableEq

/-- Environment for one `launch_cnki` run: which browser steps raise,
whether the selectors match, and the page/detail observations. -/
structure OrchEnv where
  gotoFails : Bool
  majorPresent : Bool
  majorClickFails : Bool
  textAreaPresent : Bool
  fillFails : Bool
  searchClickFails : Bool
  pages : List PageObs
  details : Nat → DetailObs
  inputFails : Bool

/-- The per-paper step of the write loop (lines 310-322): fetch details
when the detail link is truthy and merge them in, then drop the
`详情链接` key. -/
def mergePaper (p : Dict) (obs : DetailObs) : Dict :=
  if dget p "详情链接" "" ≠ "" then
    dpop (dupdate p (extract_paper_details obs)) "详情链接"
  else dpop p "详情链接"

/-- The `try` body of `launch_cnki` (lines 273-331): events it emits,
how it ends, and the writer's count when it ends.  An exception can
reach the outer `except` only from the navigation/UI steps or from
`input()`; `extract_paper_info`, `extract_paper_details` and
`write_paper` each catch internally and never raise. -/
def tryBody (env : OrchEnv) : List Ev × Outcome × Nat :=
  if env.gotoFails then ([], .exn, 0)
  else if env.majorPresent && env.majorClickFails then ([], .exn, 0)
  else if !env.textAreaPresent then ([.noTextArea], .normal, 0)
  else if env.fillFails || env.searchClickFails then ([], .exn, 0)
  else
    let papers := (extract_paper_info env.pages).papers
    if papers.isEmpty then ([.extractStart], .earlyRet, 0)
    else
      let merged := papers.enum.map (fun ip => mergePaper ip.2 (env.details ip.1))
      let st := writeSeq initWriter (merged.map (fun d => (d, true)))
      if env.inputFails then ([.extractStart], .exn, get_count st)
      else ([.extractStart], .normal, get_count st)

/-- `launch_cnki(search_formula)`: the empty-query guard
(`if not search_formula`, rejecting `None` and `""`), then CSV-writer
creation, session open, the `try` body, the `except` handler's count
log on the exception path, and the `finally` teardown. -/
def launch_cnki_trace (q : Option String) (env : OrchEnv) : List Ev :=
  match q with
  | none => [.reportError]
  | some s =>
    if s = "" then [.reportError]
    else
      let r := tryBody env
      [.createCsv fieldnames, .openSession] ++ r.1 ++
        (match r.2.1 with
         | .exn => [.logCount r.2.2]
         | _ => []) ++ [.closeSession]

/-- Does the event create the output file? -/
def isCreateCsv : Ev → Bool
  | .createCsv _ => true
  | _ => false

/-- Does the event close the browsing session? -/
def isCloseSession : Ev → Bool
  | .closeSession => true
  | _ => false

/-! ### Search formula (`get_search_formula.py`) and the simple
launcher (`aitutor_core.py`) -/

/-- CLI arguments: `-AU` (`--author`) and `-AF` (`--affiliation`),
`none` when the flag is absent. -/
structure Args where
  author : Option String
  affiliation : Option String

/-- Python truthiness of an optional string (`if args.author:`):
`None` and `""` are falsy. -/
def pyTruthy (o : Option String) : Bool :=
  match o with
  | none => false
  | some s => !(s == "")

/-- The single-quote character used by the `AU='...'` / `AF='...'`
formula parts. -/
def sq : String := String.singleton (Char.ofNat 39)

/-- `generate_search_formula(args)`: collect the truthy parts, return
the placeholder `请提供至少一个检索条件` when both are missing, else
join with `" AND "`. -/
def generate_search_formula (a : Args) : String :=
  let parts :=
    (if pyTruthy a.author then ["AU=" ++ sq ++ a.author.getD "" ++ sq] else []) ++
    (if pyTruthy a.affiliation then ["AF=" ++ sq ++ a.affiliation.getD "" ++ sq] else [])
  if parts.isEmpty then "请提供至少一个检索条件"
  else String.intercalate " AND " parts

/-- `aitutor_core.launch_cnki(search_formula)` as seen from the search
box: the value filled verbatim into the textarea, or `none` when the
`if not search_formula` guard rejects the query. -/
def aitutor_launch_filled (q : Option String) : Option String :=
  match q with
  | none => none
  | some s => if s = "" then none else some s

/-! ## Theorems -/

theorem writeSeq_cons (st : WriterState) (op : Dict × Bool) (rest : List (Dict × Bool)) :
    writeSeq st (op :: rest) = writeSeq (write_paper st op.1 op.2).1 rest := rfl

theorem writeSeq_spec (ops : List (Dict × Bool)) (st : WriterState) :
    (writeSeq st ops).fileLines
        = st.fileLines ++ (ops.filter (fun op => op.2)).map (fun op => rowFor op.1)
    ∧ (writeSeq st ops).paper_count
        = st.paper_count + (ops.filter (fun op => op.2)).length := by
  induction ops generalizing st with
  | nil => simp [writeSeq]
  | cons op rest ih =>
    obtain ⟨d, ok⟩ := op
    have hr : writeSeq st ((d, ok) :: rest) = writeSeq (write_paper st d ok).1 rest := rfl
    cases ok with
    | true =>
      have h := ih { fileLines := st.fileLines ++ [rowFor d],
                     paper_count := st.paper_count + 1 }
      have hw : (write_paper st d true).1
          = { fileLines := st.fileLines ++ [rowFor d],
              paper_count := st.paper_count + 1 } := rfl
      rw [hr, hw]
      refine ⟨?_, ?_⟩
      · rw [h.1]
        simp [List.filter_cons, List.append_assoc]
      · rw [h.2]
        simp [List.filter_cons]
        omega
    | false =>
      have h := ih st
      have hw : (write_paper st d false).1 = st := rfl
      rw [hr, hw]
      refine ⟨?_, ?_⟩
      · rw [h.1]
        simp [List.filter_cons]
      · rw [h.2]
        simp [List.filter_cons]

/-- C1 counterexample: after the first (successful) `write_paper` call
the value returned by the call is `None`, not the running count `1`;
the Python function has no `return` statement. -/
theorem write_returns_count_counterexample :
    (write_paper initWriter [] true).2
      ≠ some (get_count (write_paper initWriter [] true).1) := by
  simp [write_paper]

/-- C1 (amended): calling `write_paper` N times with N well-formed
records produces a file with exactly one header line plus N data
lines, and each call increments the running count, so `get_count`
returns N after the N-th call; the call itself returns no value. -/
theorem writer_n_writes_spec :
    (∀ st d, (write_paper st d true).1.paper_count = st.paper_count + 1)
    ∧ ∀ ds : List Dict,
        (writeSeq initWriter (ds.map (fun d => (d, true)))).fileLines
            = fieldnames :: ds.map rowFor
        ∧ get_count (writeSeq initWriter (ds.map (fun d => (d, true)))) = ds.length := by
  constructor
  · intro st d
    simp [write_paper]
  · intro ds
    have h := writeSeq_spec (ds.map (fun d => (d, true))) initWriter
    have hf : (ds.map (fun d => (d, true))).filter (fun op => op.2)
        = ds.map (fun d => (d, true)) := by
      induction ds with
      | nil => rfl
      | cons d t iht => simp [List.filter_cons, iht]
    rw [hf] at h
    constructor
    · rw [h.1]
      simp [initWriter, List.map_map, Function.comp]
    · rw [get_count, h.2]
      simp [initWriter]

/-- C10: `write_paper` is total (the whole body is inside
`try/except`, so no exception escapes); a failing call leaves the
state unchanged and appends nothing, and after any sequence of calls
(successful or failing) `get_count` equals the number of data lines
successfully appended — the file is exactly the header line plus the
rows of the successful calls. -/
theorem write_failure_count_spec :
    (∀ st d, write_paper st d false = (st, none))
    ∧ ∀ ops : List (Dict × Bool),
        (writeSeq initWriter ops).fileLines
            = fieldnames :: (ops.filter (fun op => op.2)).map (fun op => rowFor op.1)
        ∧ get_count (writeSeq initWriter ops)
            = (ops.filter (fun op => op.2)).length := by
  constructor
  · intro st d
    simp [write_paper]
  · intro ops
    have h := writeSeq_spec ops initWriter
    exact ⟨by rw [h.1]; simp [initWriter], by rw [get_count, h.2]; simp [initWriter]⟩

/-- C7: the stored publication date is the portion of the extracted
date string before its first space character when the string contains
a space, and the string unchanged otherwise. -/
theorem stored_date_spec (s : String) :
    (' ' ∈ s.data → normalizeDate s = beforeFirstSpace s)
    ∧ (' ' ∉ s.data → normalizeDate s = s) := by
  constructor
  · intro h
    simp [normalizeDate, h, beforeFirstSpace, splitSpaceHead_eq_takeWhile]
  · intro h
    simp [normalizeDate, h]

/-- Witness for C7 at the spec's own examples. -/
theorem stored_date_spec_witness :
    (' ' ∈ "2023-05-01 14:20".data
      ∧ normalizeDate "2023-05-01 14:20" = beforeFirstSpace "2023-05-01 14:20"
      ∧ beforeFirstSpace "2023-05-01 14:20" = "2023-05-01")
    ∧ (' ' ∉ "2023-05".data ∧ normalizeDate "2023-05" = "2023-05") := by
  exact ⟨⟨by decide, (stored_date_spec "2023-05-01 14:20").1 (by decide), by decide⟩,
    by decide, (stored_date_spec "2023-05").2 (by decide)⟩

/-- C9: with neither an author nor an affiliation argument the
formula generator returns the non-empty placeholder
`请提供至少一个检索条件`, which passes the orchestrator's
empty-query guard and is submitted verbatim into the search box. -/
theorem empty_args_placeholder_spec :
    generate_search_formula ⟨none, none⟩ = "请提供至少一个检索条件"
    ∧ "请提供至少一个检索条件" ≠ ""
    ∧ aitutor_launch_filled (some (generate_search_formula ⟨none, none⟩))
        = some "请提供至少一个检索条件" := by
  refine ⟨by decide, by decide, by decide⟩

/-- C5 counterexample: a row in which neither title selector matches
(and nothing throws) is skipped by the bare `continue` on lines 53-54,
with no diagnostic print — the diagnostic is printed only by the
per-row `except` branch. -/
theorem no_title_row_diag_counterexample :
    extractRow ⟨false, none, none, none, none, none, none, none, none⟩
        = RowOut.skipSilent
    ∧ extractRow ⟨false, none, none, none, none, none, none, none, none⟩
        ≠ RowOut.skipDiag := by
  exact ⟨rfl, by decide⟩

/-- C5 (amended): for every row in which neither the primary title
selector nor the fallback any-anchor selector yields a title, no
record is emitted for that row and the running count is not
incremented (the number of data rows in the file is at most the number
of rows observed on the page); the row is skipped silently, with no
diagnostic line — a diagnostic is printed only when the row's
extraction throws. -/
theorem no_title_row_skip_spec :
    (∀ r : RowObs, r.rowErr = false → r.fz14 = none → r.anyAnchor = none →
        extractRow r = RowOut.skipSilent)
    ∧ (∀ r : RowObs, r.rowErr = true → extractRow r = RowOut.skipDiag)
    ∧ ∀ rows : List RowObs, (emittedRows rows).length ≤ rows.length := by
  refine ⟨?_, ?_, ?_⟩
  · intro r h1 h2 h3
    simp [extractRow, h1, h2, h3]
  · intro r h1
    simp [extractRow, h1]
  · intro rows
    exact List.length_filterMap_le _ rows

/-- Witness for C5 at a concrete title-less row. -/
theorem no_title_row_skip_spec_witness :
    extractRow ⟨false, none, none, some "a", none, none, none, none, none⟩
        = RowOut.skipSilent
    ∧ extractRow ⟨true, none, none, none, none, none, none, none, none⟩
        = RowOut.skipDiag
    ∧ (emittedRows [⟨false, none, none, some "a", none, none, none, none, none⟩]).length
        ≤ 1 := by
  exact ⟨no_title_row_skip_spec.1 _ rfl rfl rfl,
    no_title_row_skip_spec.2.1 _ rfl,
    no_title_row_skip_spec.2.2 [⟨false, none, none, some "a", none, none, none, none, none⟩]⟩

/-- C6: every record is written with exactly the fixed set of fourteen
fields, in the fixed declared order; the value stored in column `i` is
the record's value for field `i`, defaulting to the empty string when
the field is absent from the record, whatever keys the record has. -/
theorem emitted_record_shape_spec :
    fieldnames = ["题名", "作者", "来源", "发表时间", "数据库", "被引", "下载",
                  "摘要", "关键词", "基金资助", "专辑", "专题", "分类号", "DOI"]
    ∧ fieldnames.length = 14
    ∧ ∀ d : Dict,
        (rowFor d).length = 14
        ∧ (∀ i : Nat, i < 14 →
            (rowFor d).getD i "" = dget d (fieldnames.getD i "") "")
        ∧ (∀ i : Nat, i < 14 → hasKey d (fieldnames.getD i "") = false →
            (rowFor d).getD i "" = "") := by
  refine ⟨rfl, rfl, ?_⟩
  intro d
  refine ⟨by simp [rowFor, fieldnames], ?_, ?_⟩
  · intro i hi
    interval_cases i <;> rfl
  · intro i hi hk
    have hg : (rowFor d).getD i "" = dget d (fieldnames.getD i "") "" := by
      interval_cases i <;> rfl
    rw [hg]
    exact dget_not_hasKey d _ "" hk

/-- Witness for C6 at a one-field record and columns 0 and 7. -/
theorem emitted_record_shape_spec_witness :
    (rowFor [("作者", "A")]).length = 14
    ∧ (rowFor [("作者", "A")]).getD 0 ""
        = dget [("作者", "A")] (fieldnames.getD 0 "") ""
    ∧ (rowFor [("作者", "A")]).getD 7 "" = "" := by
  exact ⟨(emitted_record_shape_spec.2.2 [("作者", "A")]).1,
    (emitted_record_shape_spec.2.2 [("作者", "A")]).2.1 0 (by decide),
    (emitted_record_shape_spec.2.2 [("作者", "A")]).2.2 7 (by decide) (by decide)⟩

/-- C3: when detail extraction raises, the detail result is the
all-empty seven-field record — never a partially-populated subset —
and merging it into a paper record and writing the result leaves every
primary column exactly as captured while all seven secondary columns
are empty. -/
theorem detail_failure_allempty_spec :
    (secondaryFieldnames.all
        (fun f => dget (extract_paper_details DetailObs.err) f "" == "")) = true
    ∧ ∀ t link a s da db q dl : String,
        rowFor (dpop (dupdate (rowDict t link a s da db q dl)
                  (extract_paper_details DetailObs.err)) "详情链接")
          = [t, a, s, da, db, q, dl, "", "", "", "", "", "", ""] := by
  refine ⟨by decide, ?_⟩
  intro t link a s da db q dl
  rfl

theorem runPages_spec (env : List PageObs) (acc : List Dict) (cur : Nat) :
    (runPages acc cur env).finalPage
        = cur + (env.takeWhile (fun p => !stops p)).length
    ∧ (runPages acc cur env).exitReason.isSome = env.any stops := by
  induction env generalizing acc cur with
  | nil => simp [runPages]
  | cons p rest ih =>
    cases p with
    | errBefore => simp [runPages, stops]
    | page rows next =>
      by_cases hr : rows.isEmpty
      · cases next <;> simp [runPages, stops, hr]
      · cases next <;>
          (simp [runPages, stops, hr, List.takeWhile_cons, List.any_cons, ih]; try omega)

theorem runPages_replicate (n : Nat) (acc : List Dict) (cur : Nat) :
    (runPages acc cur (List.replicate n contPage ++ [endPage])).finalPage = cur + n
    ∧ (runPages acc cur (List.replicate n contPage ++ [endPage])).exitReason
        = some ExitReason.noNext := by
  induction n generalizing acc cur with
  | zero => exact ⟨rfl, rfl⟩
  | succ m ih =>
    rw [List.replicate_succ, List.cons_append]
    have hstep : ∀ l, runPages acc cur (contPage :: l)
        = runPages (acc ++ emittedRows
            [⟨false, some ("T", "L"), none, none, none, none, none, none, none⟩])
          (cur + 1) l := fun l => rfl
    rw [hstep]
    have h := ih (acc ++ emittedRows
        [⟨false, some ("T", "L"), none, none, none, none, none, none, none⟩]) (cur + 1)
    exact ⟨by rw [h.1]; omega, h.2⟩

/-- C2: the page cursor starts at 1 and its final value is 1 plus the
number of successful next-page transitions; the loop exits exactly
when a page observation is a stopping one (zero rows, no enabled next
control under the combined selector, or an exception during page
processing or pagination probing) — and there is no page-count bound:
for every n there is an environment driving the cursor to 1 + n. -/
theorem pagination_loop_spec :
    (∀ env : List PageObs,
        (extract_paper_info env).finalPage
            = 1 + (env.takeWhile (fun p => !stops p)).length
        ∧ (extract_paper_info env).exitReason.isSome = env.any stops)
    ∧ ∀ n : Nat, ∃ env : List PageObs,
        (extract_paper_info env).finalPage = 1 + n
        ∧ (extract_paper_info env).exitReason = some ExitReason.noNext := by
  constructor
  · intro env
    exact runPages_spec env [] 1
  · intro n
    refine ⟨List.replicate n contPage ++ [endPage], ?_, (runPages_replicate n [] 1).2⟩
    rw [show (extract_paper_info (List.replicate n contPage ++ [endPage])).finalPage
        = (runPages [] 1 (List.replicate n contPage ++ [endPage])).finalPage from rfl,
      (runPages_replicate n [] 1).1]

theorem tryBody_events (env : OrchEnv) :
    (tryBody env).1 = [] ∨ (tryBody env).1 = [Ev.noTextArea]
      ∨ (tryBody env).1 = [Ev.extractStart] := by
  simp only [tryBody]
  repeat' split
  all_goals simp

theorem tryBody_no_create_close (env : OrchEnv) :
    (tryBody env).1.countP (fun e => isCreateCsv e) = 0
    ∧ (tryBody env).1.countP (fun e => isCloseSession e) = 0 := by
  rcases tryBody_events env with h | h | h <;> (rw [h]; exact ⟨rfl, rfl⟩)


/-- C4: an absent or empty query makes the orchestrator report an
error and return, with no output file and no session; a non-empty
query makes it create the output file (one `createCsv` event, carrying
the header fields in declared order) as the very first action, before
the session opens and before any extraction. -/
theorem orchestrator_guard_spec :
    (∀ env : OrchEnv,
        launch_cnki_trace none env = [Ev.reportError]
        ∧ launch_cnki_trace (some "") env = [Ev.reportError])
    ∧ ∀ s : String, s ≠ "" → ∀ env : OrchEnv,
        ∃ rest : List Ev,
          launch_cnki_trace (some s) env
            = Ev.createCsv fieldnames :: Ev.openSession :: rest
          ∧ rest.countP (fun e => isCreateCsv e) = 0 := by
  constructor
  · intro env
    exact ⟨rfl, rfl⟩
  · intro s hs env
    refine ⟨(tryBody env).1 ++ (match (tryBody env).2.1 with
        | .exn => [Ev.logCount (tryBody env).2.2]
        | _ => []) ++ [Ev.closeSession], ?_, ?_⟩
    · simp [launch_cnki_trace, hs]
    · simp only [List.countP_append]
      rw [(tryBody_no_create_close env).1]
      cases ho : (tryBody env).2.1 <;>
        simp [ho, List.countP_cons, List.countP_nil, isCreateCsv]

/-- Witness for C4: a concrete non-empty query and environment. -/
theorem orchestrator_guard_spec_witness :
    ("AU=x" ≠ "")
    ∧ ∃ rest : List Ev,
        launch_cnki_trace (some "AU=x")
            ⟨false, false, false, true, false, false, [], fun _ => DetailObs.err, false⟩
          = Ev.createCsv fieldnames :: Ev.openSession :: rest
        ∧ rest.countP (fun e => isCreateCsv e) = 0 := by
  refine ⟨by decide, orchestrator_guard_spec.2 "AU=x" (by decide) _⟩

/-- C8: on every run with a non-empty query — normal completion, the
missing-input branch, and every exception path — the trace contains
exactly one session-close event, and on the exception path the count
of already-persisted records is logged immediately before teardown. -/
theorem session_teardown_spec (s : String) (hs : s ≠ "") (env : OrchEnv) :
    (launch_cnki_trace (some s) env).countP (fun e => isCloseSession e) = 1
    ∧ ((tryBody env).2.1 = Outcome.exn →
        ∃ pre : List Ev,
          launch_cnki_trace (some s) env
            = pre ++ [Ev.logCount (tryBody env).2.2, Ev.closeSession]) := by
  constructor
  · simp only [launch_cnki_trace, if_neg hs, List.countP_append]
    rw [(tryBody_no_create_close env).2]
    cases ho : (tryBody env).2.1 <;>
      simp [ho, List.countP_cons, List.countP_nil, isCloseSession]
  · intro hexn
    refine ⟨[Ev.createCsv fieldnames, Ev.openSession] ++ (tryBody env).1, ?_⟩
    simp [launch_cnki_trace, hs, hexn, List.append_assoc]

/-- Witness for C8: a concrete run whose body raises at navigation. -/
theorem session_teardown_spec_witness :
    ((launch_cnki_trace (some "AU=x")
        ⟨true, false, false, true, false, false, [], fun _ => DetailObs.err, false⟩).countP
          (fun e => isCloseSession e) = 1)
    ∧ ∃ pre : List Ev,
        launch_cnki_trace (some "AU=x")
            ⟨true, false, false, true, false, false, [], fun _ => DetailObs.err, false⟩
          = pre ++ [Ev.logCount (tryBody ⟨true, false, false, true, false, false, [],
              fun _ => DetailObs.err, false⟩).2.2, Ev.closeSession] := by
  have h := session_teardown_spec "AU=x" (by decide)
      ⟨true, false, false, true, false, false, [], fun _ => DetailObs.err, false⟩
  exact ⟨h.1, h.2 rfl⟩

end AiTutor
